import Mathlib

/-!
Verification development for the ai-news-radar aggregation pipeline.

Each namespace below is a shallow embedding of one Python module of the
repository; definitions are translated from the source files named in the
comments, with Python dicts rendered as structures or association lists,
datetimes as integer UTC instants, and fallible code as Except / Option.
-/

namespace NewsStorage

/-!
Model of src/skill/storage/json_storage.py (JSONStorage.save / load).

An article is a Python dict from string keys to values; the values that
occur in articles are strings, ints, bools, None, datetime objects and
shallow lists of primitives.  A datetime object is represented by the
ISO-8601 string its isoformat() renders to.  Floats play no role in any
claim and are omitted.
-/

inductive PyPrim where
  | str (v : String)
  | int (v : Int)
  | bool (v : Bool)
  | none
  deriving DecidableEq, Repr

inductive PyVal where
  | prim (p : PyPrim)
  | datetime (iso : String)
  | list (l : List PyPrim)
  deriving DecidableEq, Repr

abbrev PyArticle := List (String × PyVal)

/-- JSON primitive values, the only things that occur inside the arrays a
saved article can contain. -/
inductive JPrim where
  | str (v : String)
  | int (v : Int)
  | bool (v : Bool)
  | null
  deriving DecidableEq, Repr

/-- JSON values as json.dump writes and json.load reads them back. -/
inductive JVal where
  | str (v : String)
  | int (v : Int)
  | bool (v : Bool)
  | null
  | arr (l : List JPrim)
  deriving DecidableEq, Repr

/-- Test key.startswith an underscore, used by the serializer to drop
internal fields. -/
def isInternalKey (k : String) : Bool :=
  match k.toList with
  | '_' :: _ => true
  | _ => false

/-- Rendering json.dump gives a primitive that sits inside a list value:
Python None becomes JSON null, strings, ints and bools keep their value. -/
def jsonOfPrim : PyPrim → JPrim
  | .str v => .str v
  | .int v => .int v
  | .bool v => .bool v
  | .none => .null

/-- Value branch of JSONStorage._serialize_articles: datetime values become
their isoformat() string, lists are shallow-copied, str/int/float/bool pass
through, and anything else falls into the trailing str(value) branch -- for
the value None that branch yields the string "None". -/
def serializeValue : PyVal → JVal
  | .datetime iso => .str iso
  | .list l => .arr (l.map jsonOfPrim)
  | .prim (.str v) => .str v
  | .prim (.int v) => .int v
  | .prim (.bool v) => .bool v
  | .prim .none => .str "None"

/-- Per-article loop of JSONStorage._serialize_articles: keys starting with
an underscore are skipped, every other value is serialized. -/
def serializeArticle : PyArticle → List (String × JVal)
  | [] => []
  | (k, v) :: rest =>
      if isInternalKey k then serializeArticle rest
      else (k, serializeValue v) :: serializeArticle rest

/-- JSONStorage._serialize_articles over a list of articles. -/
def serialize_articles (articles : List PyArticle) : List (List (String × JVal)) :=
  articles.map serializeArticle

/-- JSONStorage.save followed by JSONStorage.load: save writes a JSON
document whose "articles" entry is the serialized article list, and load
returns exactly that entry of the parsed document; json.dump followed by
json.load is the identity on the modelled JSON values, so the round trip
is _serialize_articles. -/
def save_then_load (articles : List PyArticle) : List (List (String × JVal)) :=
  serialize_articles articles

/-- Value coercion described by the spec's round-trip sentence: datetime
values become their ISO-8601 string and every other JSON-representable
value -- null included -- survives unchanged. -/
def specRoundTripValue : PyVal → JVal
  | .datetime iso => .str iso
  | .list l => .arr (l.map jsonOfPrim)
  | .prim (.str v) => .str v
  | .prim (.int v) => .int v
  | .prim (.bool v) => .bool v
  | .prim .none => .null

/-- Article-level round trip the spec describes: underscore-prefixed keys
are stripped, the remaining values survive modulo datetime coercion. -/
def specArticle : PyArticle → List (String × JVal)
  | [] => []
  | (k, v) :: rest =>
      if isInternalKey k then specArticle rest
      else (k, specRoundTripValue v) :: specArticle rest

/-- Round trip of a whole snapshot as the spec describes it. -/
def specRoundTrip (articles : List PyArticle) : List (List (String × JVal)) :=
  articles.map specArticle

/-- Replacement of a top-level None field value by the Python string
rendering str(None) = "None"; this is the extra coercion the code applies
beyond what the spec's round-trip sentence allows. -/
def coerceNone (v : PyVal) : PyVal :=
  match v with
  | .prim .none => .prim (.str "None")
  | x => x

/-- coerceNone applied to every field of every article. -/
def coerceNones (articles : List PyArticle) : List PyArticle :=
  articles.map (fun art => art.map (fun kv => (kv.1, coerceNone kv.2)))

theorem serializeValue_ne_null (v : PyVal) : serializeValue v ≠ JVal.null := by
  cases v with
  | prim p => cases p <;> simp [serializeValue]
  | datetime iso => simp [serializeValue]
  | list l => simp [serializeValue]

theorem serializeArticle_cons (k : String) (v : PyVal) (rest : PyArticle) :
    serializeArticle ((k, v) :: rest) =
      if isInternalKey k then serializeArticle rest
      else (k, serializeValue v) :: serializeArticle rest := rfl

theorem specArticle_cons (k : String) (v : PyVal) (rest : PyArticle) :
    specArticle ((k, v) :: rest) =
      if isInternalKey k then specArticle rest
      else (k, specRoundTripValue v) :: specArticle rest := rfl

theorem mem_serializeArticle_of_mem {art : PyArticle} {k : String} {v : PyVal}
    (hmem : (k, v) ∈ art) (hk : isInternalKey k = false) :
    (k, serializeValue v) ∈ serializeArticle art := by
  induction art with
  | nil => cases hmem
  | cons hd tl ih =>
      obtain ⟨k', v'⟩ := hd
      rcases List.mem_cons.mp hmem with heq | htl
      · obtain ⟨hk', hv'⟩ := Prod.mk.injEq .. ▸ heq
        subst hk'
        subst hv'
        rw [serializeArticle_cons, if_neg (by simp [hk])]
        exact List.mem_cons_self _ _
      · cases hstart : isInternalKey k' with
        | true =>
            rw [serializeArticle_cons, if_pos hstart]
            exact ih htl
        | false =>
            rw [serializeArticle_cons, if_neg (by simp [hstart])]
            exact List.mem_cons_of_mem _ (ih htl)

theorem serializeArticle_values {art : PyArticle} {kv : String × JVal}
    (hmem : kv ∈ serializeArticle art) :
    ∃ v : PyVal, kv.2 = serializeValue v := by
  induction art with
  | nil => cases hmem
  | cons hd tl ih =>
      obtain ⟨k', v'⟩ := hd
      cases hstart : isInternalKey k' with
      | true =>
          rw [serializeArticle_cons, if_pos hstart] at hmem
          exact ih hmem
      | false =>
          rw [serializeArticle_cons, if_neg (by simp [hstart])] at hmem
          rcases List.mem_cons.mp hmem with heq | htl
          · exact ⟨v', by simp [heq]⟩
          · exact ih htl

/-- C10: a None-valued, non-internal field of a saved article is persisted
as the JSON string "None", and no persisted field value of any saved
article is JSON null. -/
theorem none_fields_persist_as_str_none
    (articles : List PyArticle) (art : PyArticle) (k : String)
    (hart : art ∈ articles) (hk : (k, PyVal.prim PyPrim.none) ∈ art)
    (hpriv : isInternalKey k = false) :
    (∃ sart ∈ save_then_load articles, (k, JVal.str "None") ∈ sart) ∧
    ∀ sart ∈ save_then_load articles, ∀ kv ∈ sart, kv.2 ≠ JVal.null := by
  constructor
  · refine ⟨serializeArticle art, List.mem_map_of_mem _ hart, ?_⟩
    simpa [serializeValue] using mem_serializeArticle_of_mem hk hpriv
  · intro sart hsart kv hkv
    rcases List.mem_map.mp hsart with ⟨art', _, rfl⟩
    obtain ⟨v, hv⟩ := serializeArticle_values hkv
    rw [hv]
    exact serializeValue_ne_null v

/-- Witness for C10 at a concrete article with a None-valued date field. -/
theorem none_fields_persist_as_str_none_witness :
    (∃ sart ∈ save_then_load [[("date", PyVal.prim PyPrim.none)]],
        ("date", JVal.str "None") ∈ sart) ∧
    ∀ sart ∈ save_then_load [[("date", PyVal.prim PyPrim.none)]],
      ∀ kv ∈ sart, kv.2 ≠ JVal.null :=
  none_fields_persist_as_str_none
    [[("date", PyVal.prim PyPrim.none)]] [("date", PyVal.prim PyPrim.none)]
    "date" (by decide) (by decide) (by decide)

/-- C2 counterexample: an article whose date field is None round-trips to
the JSON string "None", not to JSON null as the claim asserts. -/
theorem save_load_breaks_null_date :
    save_then_load [[("date", PyVal.prim PyPrim.none)]] ≠
      specRoundTrip [[("date", PyVal.prim PyPrim.none)]] ∧
    save_then_load [[("date", PyVal.prim PyPrim.none)]] =
      [[("date", JVal.str "None")]] ∧
    specRoundTrip [[("date", PyVal.prim PyPrim.none)]] =
      [[("date", JVal.null)]] := by
  refine ⟨?_, rfl, rfl⟩
  decide

theorem serializeValue_eq_spec_coerce (v : PyVal) :
    serializeValue v = specRoundTripValue (coerceNone v) := by
  cases v with
  | prim p => cases p <;> rfl
  | datetime iso => rfl
  | list l => rfl

theorem serializeArticle_eq_spec_coerce (art : PyArticle) :
    serializeArticle art = specArticle (art.map (fun kv => (kv.1, coerceNone kv.2))) := by
  induction art with
  | nil => rfl
  | cons hd tl ih =>
      obtain ⟨k, v⟩ := hd
      cases hstart : isInternalKey k with
      | true =>
          rw [serializeArticle_cons, if_pos hstart, List.map_cons, specArticle_cons,
            if_pos hstart, ih]
      | false =>
          rw [serializeArticle_cons, if_neg (by simp [hstart]), List.map_cons,
            specArticle_cons, if_neg (by simp [hstart]), ih,
            serializeValue_eq_spec_coerce]

/-- C2 amended: save followed by load returns the articles modulo stripping
of underscore-prefixed fields and datetime-to-ISO-string coercion, after
every top-level None field value has additionally been coerced to the
Python string "None". -/
theorem save_load_roundtrip_amended (articles : List PyArticle) :
    save_then_load articles = specRoundTrip (coerceNones articles) := by
  unfold save_then_load serialize_articles specRoundTrip coerceNones
  rw [List.map_map]
  exact List.map_congr_left (fun art _ => serializeArticle_eq_spec_coerce art)

end NewsStorage

namespace PyModel

/-!
Shared modelling of Python-level helpers used by several modules: str.strip,
str.lower, and the date-typed values the date-handling code receives.
-/

/-- Whitespace characters str.strip removes (the ASCII ones; vertical tab
and form feed are written by code point). -/
def isPyWS (c : Char) : Bool :=
  c = ' ' || c = '\t' || c = '\n' || c = '\r' || c = Char.ofNat 11 || c = Char.ofNat 12

/-- Python str.strip(): drop leading and trailing whitespace. -/
def pyStrip (s : String) : String :=
  String.mk (((s.toList.dropWhile isPyWS).reverse.dropWhile isPyWS).reverse)

/-- Python str.lower(), modelled characterwise for the ASCII range the
analysed inputs use. -/
def lowerStr (s : String) : String :=
  String.mk (s.toList.map Char.toLower)

/-- Date-typed Python value as it reaches TimeFilter._parse_date and
BaseParser.normalize: a datetime object, modelled by the UTC instant it
denotes -- faithful for these two users because TimeFilter._parse_date
attaches UTC to naive values before any comparison and BaseParser.normalize
stores the value without comparing it -- or a string carrying its
truthiness (nonempty) together with the outcome of handing it to the
enclosing module's date parsing library, an external collaborator. -/
inductive DateVal where
  | dt (t : Int)
  | str (nonempty : Bool) (parsed : Option Int)
  deriving DecidableEq, Repr

/-- Python truthiness of a date-typed value: datetime objects are truthy,
a string is truthy when nonempty. -/
def truthyDate : DateVal → Bool
  | .dt _ => true
  | .str ne _ => ne

/-- Instant a date-typed value parses to, if any. -/
def dateInstant : DateVal → Option Int
  | .dt t => some t
  | .str _ p => p

/-- Python truthiness of an optional string (absent and empty are falsy). -/
def truthyStr : Option String → Bool
  | some s => s ≠ ""
  | Option.none => false

end PyModel

namespace NewsParser

open PyModel

/-!
Model of src/skill/parsers/base_parser.py (BaseParser.normalize).

The incoming article dict may lack any key; optional string keys are
Option String, tags is an optional list of strings, and the date value is
a PyModel.DateVal whose parse outcome stands for
datetime.fromisoformat(date.replace("Z", "+00:00")).
-/

structure RawArticle where
  title : Option String := Option.none
  url : Option String := Option.none
  description : Option String := Option.none
  source : Option String := Option.none
  language : Option String := Option.none
  date : Option DateVal := Option.none
  author : Option String := Option.none
  tags : Option (List String) := Option.none
  image_url : Option String := Option.none
  bilingual_title : Option String := Option.none
  deriving DecidableEq, Repr

structure NormArticle where
  title : String
  url : String
  description : String
  source : String
  language : String
  date : Option Int
  author : Option String
  tags : Option (List String)
  image_url : Option String
  bilingual_title : Option String
  deriving DecidableEq, Repr

/-- Date branch of BaseParser.normalize: a truthy datetime is kept, a
truthy string is parsed (None on failure), everything else gives None. -/
def normDate : Option DateVal → Option Int
  | some (.dt t) => some t
  | some (.str ne p) => if ne then p else Option.none
  | Option.none => Option.none

/-- Optional-field branch of BaseParser.normalize: the field is copied
only when present and truthy. -/
def optField (v : Option String) : Option String :=
  match v with
  | some s => if s = "" then Option.none else some s
  | Option.none => Option.none

/-- Optional tags field: copied only when present and nonempty. -/
def optTags (v : Option (List String)) : Option (List String) :=
  match v with
  | some l => if l = [] then Option.none else some l
  | Option.none => Option.none

/-- Body of BaseParser.normalize for one article: title, url and
description are fetched with default "" and stripped, source defaults to
the parser's class name, language defaults to "en" (the later optional-field
pass rewrites it with the identical value when it is present and truthy). -/
def normalizeOne (parserName : String) (a : RawArticle) : NormArticle :=
  { title := pyStrip (a.title.getD "")
    url := pyStrip (a.url.getD "")
    description := pyStrip (a.description.getD "")
    source := a.source.getD parserName
    language := a.language.getD "en"
    date := normDate a.date
    author := optField a.author
    tags := optTags a.tags
    image_url := optField a.image_url
    bilingual_title := optField a.bilingual_title }

/-- BaseParser.normalize: each article is normalized and appended only when
the stripped title and url are both truthy. -/
def normalize (parserName : String) (articles : List RawArticle) : List NormArticle :=
  articles.filterMap (fun a =>
    let norm := normalizeOne parserName a
    if norm.title ≠ "" && norm.url ≠ "" then some norm else Option.none)

/-- C8: normalize on a single article yields nothing when the trimmed title
or url is empty, and otherwise yields exactly the one normalized record,
with title, url and description trimmed and language defaulting to "en";
no article in any normalize output has an empty title or url. -/
theorem normalize_single (parserName : String) (a : RawArticle)
    (articles : List RawArticle) :
    (normalize parserName [a] =
      if pyStrip (a.title.getD "") ≠ "" ∧ pyStrip (a.url.getD "") ≠ "" then
        [normalizeOne parserName a]
      else []) ∧
    (normalizeOne parserName a).title = pyStrip (a.title.getD "") ∧
    (normalizeOne parserName a).url = pyStrip (a.url.getD "") ∧
    (normalizeOne parserName a).description = pyStrip (a.description.getD "") ∧
    (a.language = Option.none → (normalizeOne parserName a).language = "en") ∧
    (∀ n ∈ normalize parserName articles, n.title ≠ "" ∧ n.url ≠ "") := by
  refine ⟨?_, rfl, rfl, rfl, ?_, ?_⟩
  · by_cases ht : pyStrip (a.title.getD "") = "" <;>
      by_cases hu : pyStrip (a.url.getD "") = "" <;>
        simp [normalize, normalizeOne, ht, hu]
  · intro hl
    simp [normalizeOne, hl]
  · intro n hn
    rcases List.mem_filterMap.mp hn with ⟨b, _, hb⟩
    by_cases ht : (normalizeOne parserName b).title = "" <;>
      by_cases hu : (normalizeOne parserName b).url = ""
    · simp [ht, hu] at hb
    · simp [ht, hu] at hb
    · simp [ht, hu] at hb
    · simp only [ht, hu] at hb ⊢
      constructor
      · intro hc
        rw [if_pos (by simp [ht, hu])] at hb
        cases hb
        exact ht hc
      · intro hc
        rw [if_pos (by simp [ht, hu])] at hb
        cases hb
        exact hu hc

/-- Witness for C8 at a concrete article with surrounding whitespace and no
language field. -/
theorem normalize_single_witness :
    (normalize "RSSParser"
        [{ title := some "  Hello AI  ", url := some " https://e.x/1 ",
           description := some " d " }] =
      if pyStrip ((some "  Hello AI  " : Option String).getD "") ≠ "" ∧
         pyStrip ((some " https://e.x/1 " : Option String).getD "") ≠ "" then
        [normalizeOne "RSSParser"
          { title := some "  Hello AI  ", url := some " https://e.x/1 ",
            description := some " d " }]
      else []) ∧
    (normalizeOne "RSSParser"
        { title := some "  Hello AI  ", url := some " https://e.x/1 ",
          description := some " d " }).title =
      pyStrip ((some "  Hello AI  " : Option String).getD "") ∧
    (normalizeOne "RSSParser"
        { title := some "  Hello AI  ", url := some " https://e.x/1 ",
          description := some " d " }).url =
      pyStrip ((some " https://e.x/1 " : Option String).getD "") ∧
    (normalizeOne "RSSParser"
        { title := some "  Hello AI  ", url := some " https://e.x/1 ",
          description := some " d " }).description =
      pyStrip ((some " d " : Option String).getD "") ∧
    (({ title := some "  Hello AI  ", url := some " https://e.x/1 ",
        description := some " d " } : RawArticle).language = Option.none →
      (normalizeOne "RSSParser"
        { title := some "  Hello AI  ", url := some " https://e.x/1 ",
          description := some " d " }).language = "en") ∧
    (∀ n ∈ normalize "RSSParser"
        [{ title := some " ", url := some "https://e.x/2" }],
      n.title ≠ "" ∧ n.url ≠ "") :=
  normalize_single "RSSParser"
    { title := some "  Hello AI  ", url := some " https://e.x/1 ",
      description := some " d " }
    [{ title := some " ", url := some "https://e.x/2" }]

end NewsParser

namespace NewsTime

open PyModel

/-!
Model of src/src/filters/time_filter.py (TimeFilter).

Instants are integer Unix seconds; the constructor records
cutoff_time = now - hours * 3600.  A date string's parse outcome stands for
dateutil.parser.parse with naive results replaced by their UTC reading.
-/

structure TArticle where
  date : Option DateVal := Option.none
  title : String := ""
  deriving DecidableEq, Repr

structure TimeWindow where
  hours : Int
  cutoff_time : Int
  deriving DecidableEq, Repr

/-- TimeFilter.__init__(hours): cutoff_time = datetime.now(utc) - timedelta(hours=hours). -/
def TimeWindow.init (hours : Int) (now : Int) : TimeWindow :=
  { hours := hours, cutoff_time := now - hours * 3600 }

/-- TimeFilter._parse_date: a datetime passes through (naive ones already
read as UTC in the model), a string yields its dateutil parse outcome,
anything else yields None. -/
def parse_date : Option DateVal → Option Int
  | some (.dt t) => some t
  | some (.str _ p) => p
  | Option.none => Option.none

/-- TimeFilter.filter: keep the articles whose parsed date exists and is at
least the cutoff. -/
def TimeWindow.runFilter (tf : TimeWindow) (articles : List TArticle) : List TArticle :=
  articles.filter (fun a =>
    match parse_date a.date with
    | some d => decide (tf.cutoff_time ≤ d)
    | Option.none => false)

/-- C6: the time filter keeps exactly the articles of the input whose date
parses and is at least now - hours * 3600; articles with an absent date are
dropped; and concretely, with a 24-hour window an article dated 23 hours 59
minutes ago survives while one dated 25 hours ago does not. -/
theorem time_filter_window_membership (hours now : Int) (articles : List TArticle) :
    (∀ a, a ∈ (TimeWindow.init hours now).runFilter articles ↔
      a ∈ articles ∧ ∃ d, parse_date a.date = some d ∧ now - hours * 3600 ≤ d) ∧
    (∀ a : TArticle, a.date = Option.none →
      a ∉ (TimeWindow.init hours now).runFilter articles) ∧
    (∀ t : Int,
      (TimeWindow.init 24 t).runFilter
          [{ date := some (.dt (t - 86340)), title := "fresh" }] =
        [{ date := some (.dt (t - 86340)), title := "fresh" }]) ∧
    (∀ t : Int,
      (TimeWindow.init 24 t).runFilter
          [{ date := some (.dt (t - 90000)), title := "stale" }] = []) := by
  refine ⟨?_, ?_, ?_, ?_⟩
  · intro a
    rw [TimeWindow.runFilter, List.mem_filter]
    constructor
    · rintro ⟨hmem, hcond⟩
      refine ⟨hmem, ?_⟩
      rcases hp : parse_date a.date with _ | d
      · rw [hp] at hcond
        cases hcond
      · rw [hp] at hcond
        exact ⟨d, rfl, by simpa [TimeWindow.init] using of_decide_eq_true hcond⟩
    · rintro ⟨hmem, d, hp, hd⟩
      refine ⟨hmem, ?_⟩
      rw [hp]
      simpa [TimeWindow.init] using hd
  · intro a hnone hmem
    rw [TimeWindow.runFilter, List.mem_filter, hnone] at hmem
    exact absurd hmem.2 (by simp [parse_date])
  · intro t
    simp only [TimeWindow.runFilter, TimeWindow.init, parse_date, List.filter]
    rw [decide_eq_true (by omega : t - 24 * 3600 ≤ t - 86340)]
  · intro t
    simp only [TimeWindow.runFilter, TimeWindow.init, parse_date, List.filter]
    rw [decide_eq_false (by omega : ¬ (t - 24 * 3600 ≤ t - 90000))]

/-- Dateless article used by the C6 witness. -/
def tArtNoDate : TArticle :=
  { title := "no date" }

/-- Witness for C6: the null-date article is dropped by a concrete
24-hour window at instant 0. -/
theorem time_filter_window_membership_witness :
    tArtNoDate ∉ (TimeWindow.init 24 0).runFilter [tArtNoDate] :=
  (time_filter_window_membership 24 0 [tArtNoDate]).2.1 tArtNoDate rfl

end NewsTime

namespace NewsTopic

open PyModel

/-!
Model of src/src/filters/ai_topic_filter.py (AITopicFilter).

Keywords are compiled to case-insensitive patterns of the shape
backslash-b, the escaped lowercased keyword, backslash-b; searching such a
pattern in the lowercased text is existence of an occurrence of the keyword
flanked by word boundaries.  Word characters are modelled as alphanumerics
and the underscore (the ASCII reading of the regex word class, which covers
every keyword and text the claims range over).  Scores are exact rationals
standing for the float literals 1.0, 0.7, 0.5, 0.0.
-/

/-- Regex word character (ASCII). -/
def isWordChar (c : Char) : Bool :=
  c.isAlphanum || c = '_'

/-- Word boundary of the regex anchor at position p of the text. -/
def boundaryAt (t : List Char) (p : Nat) : Bool :=
  (decide (0 < p) && isWordChar (t.getD (p - 1) ' ')) !=
    (decide (p < t.length) && isWordChar (t.getD p ' '))

/-- Occurrence of kw as the contiguous segment of t starting at i. -/
def occursAt (kw t : List Char) (i : Nat) : Bool :=
  (t.drop i).take kw.length == kw

/-- re.search of a compiled keyword pattern in the text: some position
carries the keyword between two word boundaries. -/
def searchKeyword (kw t : List Char) : Bool :=
  (List.range (t.length + 1)).any (fun i =>
    occursAt kw t i && boundaryAt t i && boundaryAt t (i + kw.length))

/-- Tags value of an article dict: the code accepts a list (joined with
spaces) or a plain string. -/
inductive TagsVal where
  | strVal (s : String)
  | listVal (l : List String)
  deriving DecidableEq, Repr

structure ScoredArticle where
  title : Option String := Option.none
  description : Option String := Option.none
  tags : Option TagsVal := Option.none
  deriving DecidableEq, Repr

/-- Python truthiness of a tags value. -/
def truthyTags : TagsVal → Bool
  | .strVal s => s ≠ ""
  | .listVal l => l ≠ []

/-- String the tags part contributes to the searchable text. -/
def strOfTags : TagsVal → String
  | .strVal s => s
  | .listVal l => String.intercalate " " l

/-- AITopicFilter._get_searchable_text: join the present and truthy parts
of title, description and tags with single spaces. -/
def searchableText (a : ScoredArticle) : String :=
  String.intercalate " " (List.filterMap id
    [match a.title with
     | some s => if s = "" then Option.none else some s
     | Option.none => Option.none,
     match a.description with
     | some s => if s = "" then Option.none else some s
     | Option.none => Option.none,
     match a.tags with
     | some tv => if truthyTags tv then some (strOfTags tv) else Option.none
     | Option.none => Option.none])

/-- Keyword lists of an AITopicFilter instance (the compiled patterns are
the keywords lowercased). -/
structure KeywordSets where
  primary : List String
  secondary : List String
  aliases : List String
  deriving DecidableEq, Repr

/-- Any compiled pattern of the list matches the lowered text. -/
def matchesAny (kws : List String) (textLower : String) : Bool :=
  kws.any (fun kw => searchKeyword (lowerStr kw).toList textLower.toList)

/-- AITopicFilter.score: empty searchable text scores 0.0; otherwise the
first tier with a matching pattern decides the score, primary 1.0 before
secondary 0.7 before alias 0.5, and 0.0 when nothing matches. -/
def score (f : KeywordSets) (a : ScoredArticle) : ℚ :=
  let text := searchableText a
  if text = "" then 0
  else
    let tl := lowerStr text
    if matchesAny f.primary tl then 1
    else if matchesAny f.secondary tl then 7/10
    else if matchesAny f.aliases tl then 1/2
    else 0

/-- C4: score returns exactly the first matching tier's fixed value in
priority order -- 1.0 whenever a primary keyword matches the searchable
text, independently of the other tiers; 0.7 exactly when no primary but
some secondary keyword matches; 0.5 exactly when only an alias matches;
0.0 otherwise -- and the score is always one of the four fixed constants,
never a sum or an average. -/
theorem score_first_tier_wins (f : KeywordSets) (a : ScoredArticle) :
    (score f a = 1 ↔ searchableText a ≠ "" ∧
      matchesAny f.primary (lowerStr (searchableText a)) = true) ∧
    (score f a = 7/10 ↔ searchableText a ≠ "" ∧
      matchesAny f.primary (lowerStr (searchableText a)) = false ∧
      matchesAny f.secondary (lowerStr (searchableText a)) = true) ∧
    (score f a = 1/2 ↔ searchableText a ≠ "" ∧
      matchesAny f.primary (lowerStr (searchableText a)) = false ∧
      matchesAny f.secondary (lowerStr (searchableText a)) = false ∧
      matchesAny f.aliases (lowerStr (searchableText a)) = true) ∧
    (score f a = 0 ↔ searchableText a = "" ∨
      (matchesAny f.primary (lowerStr (searchableText a)) = false ∧
       matchesAny f.secondary (lowerStr (searchableText a)) = false ∧
       matchesAny f.aliases (lowerStr (searchableText a)) = false)) ∧
    (score f a = 0 ∨ score f a = 1/2 ∨ score f a = 7/10 ∨ score f a = 1) := by
  by_cases htext : searchableText a = "" <;>
    cases hp : matchesAny f.primary (lowerStr (searchableText a)) <;>
      cases hs : matchesAny f.secondary (lowerStr (searchableText a)) <;>
        cases hal : matchesAny f.aliases (lowerStr (searchableText a)) <;>
          refine ⟨?_, ?_, ?_, ?_, ?_⟩ <;>
            simp [score, htext, hp, hs, hal] <;> norm_num

end NewsTopic

namespace NewsCore

open PyModel

/-!
Model of src/skill/core/news_radar.py (NewsRadar._filter_by_time,
NewsRadar._process_source and the per-source part of
NewsRadar.aggregate_incremental).

A source's fetch-and-parse outcome is an input of the model: network and
feed parsing are external collaborators, and any exception they raise
surfaces as the error case.  The stats dict is mutated only by += in the
modelled code, so _process_source returns the increments and the
aggregation loop accumulates them.  Date values track timezone awareness:
the since argument of _filter_by_time is always aware (State stores
datetime.now(timezone.utc).isoformat()), so comparing a naive datetime --
which the repository's feed parsers do produce -- raises TypeError inside
the try, and the except branch includes the article; a date string's parse
outcome stands for datetime.fromisoformat(s.replace("Z", "+00:00")), aware
exactly when the string carries an offset or a Z.  AttributeError-free
inputs (datetimes, strings, None) are the only values the parsers produce.
The later _apply_filters stage never touches stats["new_articles"],
stats["sources_processed"] or stats["sources_failed"], so the model stops
at the point where new_articles is recorded.
-/

/-- Python datetime object as _filter_by_time receives it: tzinfo-aware,
carrying the instant it denotes, or naive.  A naive value denotes no
instant in this module -- comparing it with the always-aware since raises
TypeError -- so its payload (the wall-clock reading) is never compared. -/
inductive PyDatetime where
  | aware (t : Int)
  | naive (t : Int)
  deriving DecidableEq, Repr

/-- Date-typed value reaching NewsRadar._filter_by_time: a datetime object,
or a string with its truthiness and the outcome of
datetime.fromisoformat(s.replace("Z", "+00:00")) -- an aware datetime when
the string carries an offset or a Z, a naive one when it carries neither,
and None when parsing raises ValueError. -/
inductive CDateVal where
  | dt (d : PyDatetime)
  | str (nonempty : Bool) (parsed : Option PyDatetime)
  deriving DecidableEq, Repr

/-- Python truthiness of a date value: datetime objects are truthy, a
string is truthy when nonempty. -/
def truthyC : CDateVal → Bool
  | .dt _ => true
  | .str ne _ => ne

/-- Datetime object a date value evaluates or parses to, if any. -/
def parsedOf : CDateVal → Option PyDatetime
  | .dt d => some d
  | .str _ p => p

structure RArticle where
  url : Option String := Option.none
  date : Option CDateVal := Option.none
  published : Option CDateVal := Option.none
  source : Option String := Option.none
  title : String := ""
  deriving DecidableEq, Repr

inductive SourceType where
  | rss
  | html
  | opml
  | other (t : String)
  deriving DecidableEq, Repr

structure RSource where
  name : String
  stype : SourceType
  fetched : Except String (List RArticle)
  deriving Repr

structure Stats where
  processed : Nat
  failed : Nat
  deriving DecidableEq, Repr

/-- Python expression article.get("date") or article.get("published"). -/
def pyOrDate (d p : Option CDateVal) : Option CDateVal :=
  match d with
  | some v => if truthyC v then some v else p
  | Option.none => p

/-- Loop body of NewsRadar._filter_by_time: a missing or falsy date keeps
the article; otherwise article_date > since keeps exactly the aware dates
strictly newer than since, while the ValueError a failing parse raises and
the TypeError a naive datetime raises against the aware since are both
caught by the except branch, which also keeps the article. -/
def keepAfter (since : Int) (a : RArticle) : Bool :=
  match pyOrDate a.date a.published with
  | Option.none => true
  | some v =>
      if truthyC v = false then true
      else
        match parsedOf v with
        | some (.aware t) => decide (since < t)
        | some (.naive _) => true
        | Option.none => true

/-- NewsRadar._filter_by_time. -/
def filter_by_time (articles : List RArticle) (since : Int) : List RArticle :=
  articles.filter (keepAfter since)

/-- Tail of _process_source for rss and html sources: articles without a
truthy source name get the source's name. -/
def setSourceName (name : String) (a : RArticle) : RArticle :=
  if truthyStr a.source then a else { a with source := some name }

/-- NewsRadar._process_source, returning the fetched articles and the stats
increments.  An unknown source type is counted as failed with no articles
and no exception; any exception from fetching or parsing (the error case
of the outcome) is caught by the surrounding try, counted as failed, and
yields no articles; otherwise the article list is time-filtered when a
last_fetch instant exists, and rss and html articles get the source name
filled in. -/
def process_source (src : RSource) (lastFetch : Option Int) : List RArticle × Stats :=
  match src.stype with
  | .other _ => ([], { processed := 0, failed := 1 })
  | .opml =>
      match src.fetched with
      | .error _ => ([], { processed := 0, failed := 1 })
      | .ok articles =>
          let articles :=
            match lastFetch with
            | some t => filter_by_time articles t
            | Option.none => articles
          (articles, { processed := 1, failed := 0 })
  | _ =>
      match src.fetched with
      | .error _ => ([], { processed := 0, failed := 1 })
      | .ok articles =>
          let articles :=
            match lastFetch with
            | some t => filter_by_time articles t
            | Option.none => articles
          (articles.map (setSourceName src.name), { processed := 1, failed := 0 })

/-- Componentwise accumulation of stats increments. -/
def addStats (s t : Stats) : Stats :=
  { processed := s.processed + t.processed, failed := s.failed + t.failed }

/-- Urls present in the loaded storage snapshot (a set in the code; list
membership here). -/
def existingUrls (existing : List RArticle) : List (Option String) :=
  existing.map (fun a => a.url)

/-- Per-source loop of aggregate_incremental: process the source, drop the
articles whose url is already stored, accumulate stats. -/
def incLoop (urls : List (Option String)) (lastFetch : Option Int) :
    List RSource → List RArticle × Stats
  | [] => ([], { processed := 0, failed := 0 })
  | src :: rest =>
      let this := process_source src lastFetch
      let fresh := this.1.filter (fun a => decide (a.url ∉ urls))
      let restRun := incLoop urls lastFetch rest
      (fresh ++ restRun.1, addStats this.2 restRun.2)

/-- Result of one aggregate_incremental run, up to the point where
stats["new_articles"] is recorded: the collected new articles, the stats
increments, the value assigned to stats["new_articles"], and the
last-fetch instant the run writes back to the state store. -/
structure IncRun where
  articles : List RArticle
  stats : Stats
  newArticles : Nat
  nextLastFetch : Option Int
  deriving Repr

/-- NewsRadar.aggregate_incremental with a configured State store, whose
stored last_fetch_time is lastFetch and whose set_last_fetch_time is called
with the instant now at the end of the run. -/
def aggregate_incremental (sources : List RSource) (existing : List RArticle)
    (lastFetch : Option Int) (now : Int) : IncRun :=
  let run := incLoop (existingUrls existing) lastFetch sources
  { articles := run.1
    stats := run.2
    newArticles := run.1.length
    nextLastFetch := some now }

end NewsCore

namespace NewsCore

open PyModel

/-- Articles a source's successful fetch-and-parse produced (none when it
raised). -/
def fetchedArticles (src : RSource) : List RArticle :=
  match src.fetched with
  | .ok l => l
  | .error _ => []

/-- Condition under which an upstream article cannot be counted as new on a
rerun: its url is already stored, or its effective date value is truthy and
parses to a timezone-aware instant not after the first run's recorded fetch
instant (naive dates never qualify: their comparison raises TypeError and
the article is retained). -/
def staleOrKnown (urls : List (Option String)) (t1 : Int) (a : RArticle) : Bool :=
  decide (a.url ∈ urls) ||
    (match pyOrDate a.date a.published with
     | some v =>
         truthyC v &&
           (match parsedOf v with
            | some (.aware t) => decide (t ≤ t1)
            | _ => false)
     | Option.none => false)

theorem setSourceName_url (name : String) (a : RArticle) :
    (setSourceName name a).url = a.url := by
  rw [setSourceName]
  by_cases h : truthyStr a.source = true <;> simp [h]

theorem keepAfter_false_of_stale {urls : List (Option String)} {t1 : Int}
    {a : RArticle} (hstale : staleOrKnown urls t1 a = true)
    (hkeep : keepAfter t1 a = true) : a.url ∈ urls := by
  rw [staleOrKnown, Bool.or_eq_true, decide_eq_true_eq] at hstale
  rcases hstale with hurl | hdate
  · exact hurl
  · exfalso
    rw [keepAfter] at hkeep
    rcases hv : pyOrDate a.date a.published with _ | v
    · rw [hv] at hdate
      cases hdate
    · rw [hv] at hdate hkeep
      rw [Bool.and_eq_true] at hdate
      rcases hdate with ⟨htr, hinst⟩
      have hkeep' : (if truthyC v = false then true
          else
            match parsedOf v with
            | some (.aware t) => decide (t1 < t)
            | some (.naive _) => true
            | Option.none => true) = true := hkeep
      rw [htr, if_neg (by simp)] at hkeep'
      rcases hi : parsedOf v with _ | d
      · rw [hi] at hinst
        cases hinst
      · rw [hi] at hinst hkeep'
        cases d with
        | aware t =>
            have h1 : decide (t ≤ t1) = true := hinst
            have h2 : decide (t1 < t) = true := hkeep'
            rw [decide_eq_true_eq] at h1 h2
            omega
        | naive t =>
            exact Bool.false_ne_true hinst

theorem fresh_nil_of_stale {urls : List (Option String)} {t1 : Int}
    {src : RSource}
    (h : ∀ a ∈ fetchedArticles src, staleOrKnown urls t1 a = true) :
    (process_source src (some t1)).1.filter (fun a => decide (a.url ∉ urls)) = [] := by
  rw [List.filter_eq_nil_iff]
  intro a hmem
  rw [decide_eq_true_eq]
  intro hnot
  apply hnot
  cases src with
  | mk name stype fetched =>
      cases stype with
      | other t => cases hmem
      | opml =>
          cases fetched with
          | error e => cases hmem
          | ok arts =>
              simp only [process_source] at hmem
              rw [filter_by_time, List.mem_filter] at hmem
              exact keepAfter_false_of_stale
                (h a (by simpa [fetchedArticles] using hmem.1)) hmem.2
      | rss =>
          cases fetched with
          | error e => cases hmem
          | ok arts =>
              simp only [process_source] at hmem
              rcases List.mem_map.mp hmem with ⟨b, hb, rfl⟩
              rw [filter_by_time, List.mem_filter] at hb
              rw [setSourceName_url]
              exact keepAfter_false_of_stale
                (h b (by simpa [fetchedArticles] using hb.1)) hb.2
      | html =>
          cases fetched with
          | error e => cases hmem
          | ok arts =>
              simp only [process_source] at hmem
              rcases List.mem_map.mp hmem with ⟨b, hb, rfl⟩
              rw [filter_by_time, List.mem_filter] at hb
              rw [setSourceName_url]
              exact keepAfter_false_of_stale
                (h b (by simpa [fetchedArticles] using hb.1)) hb.2

/-- C3 counterexample: a source whose single article has no date and is not
in storage is counted as new again on the second run even though nothing
upstream changed and storage is unchanged, so the second run reports
new_articles = 1, not 0. -/
theorem incremental_rerun_counts_undated :
    ¬ ((aggregate_incremental
          [{ name := "s", stype := SourceType.rss,
             fetched := Except.ok [{ url := some "u", title := "undated" }] }]
          []
          ((aggregate_incremental
              [{ name := "s", stype := SourceType.rss,
                 fetched := Except.ok [{ url := some "u", title := "undated" }] }]
              [] Option.none 0).nextLastFetch)
          1).newArticles = 0) := by
  decide

/-- C3 amended: a second aggregate_incremental run with identical upstream
content and unchanged storage reports new_articles = 0 provided every
upstream article either already sits in storage by url or carries a truthy,
parseable date not after the first run's recorded fetch instant; articles
with missing or unparseable dates are counted as new on every run while
storage stays unchanged. -/
theorem incremental_idempotent_amended (sources : List RSource)
    (existing : List RArticle) (lf0 : Option Int) (t1 now2 : Int)
    (h : ∀ src ∈ sources, ∀ a ∈ fetchedArticles src,
        staleOrKnown (existingUrls existing) t1 a = true) :
    (aggregate_incremental sources existing
        ((aggregate_incremental sources existing lf0 t1).nextLastFetch)
        now2).newArticles = 0 := by
  have hrun : ∀ srcs : List RSource,
      (∀ src ∈ srcs, ∀ a ∈ fetchedArticles src,
        staleOrKnown (existingUrls existing) t1 a = true) →
      (incLoop (existingUrls existing) (some t1) srcs).1 = [] := by
    intro srcs
    induction srcs with
    | nil => intro _; rfl
    | cons src rest ih =>
        intro hall
        show ((process_source src (some t1)).1.filter
            (fun a => decide (a.url ∉ existingUrls existing)) ++
          (incLoop (existingUrls existing) (some t1) rest).1) = []
        rw [fresh_nil_of_stale (hall src (List.mem_cons_self _ _)),
          ih (fun s hs => hall s (List.mem_cons_of_mem _ hs)), List.append_nil]
  show (incLoop (existingUrls existing) (some t1) sources).1.length = 0
  rw [hrun sources h]
  rfl

/-- Witness for the amended C3 at a run with one stored article and one
dated stale article. -/
theorem incremental_idempotent_amended_witness :
    (aggregate_incremental
        [{ name := "s", stype := SourceType.rss,
           fetched := Except.ok
             [{ url := some "u", title := "known" },
              { url := some "v",
                date := some (CDateVal.dt (PyDatetime.aware 3)),
                title := "old" }] }]
        [{ url := some "u", title := "stored" }]
        ((aggregate_incremental
            [{ name := "s", stype := SourceType.rss,
               fetched := Except.ok
                 [{ url := some "u", title := "known" },
                  { url := some "v",
                    date := some (CDateVal.dt (PyDatetime.aware 3)),
                    title := "old" }] }]
            [{ url := some "u", title := "stored" }] Option.none 5).nextLastFetch)
        9).newArticles = 0 :=
  incremental_idempotent_amended _ _ Option.none 5 9 (by decide)

end NewsCore

namespace NewsCore

open PyModel

/-- Article with a naive datetime older than the last fetch, for the C5
counterexample. -/
def artNaiveOld : RArticle :=
  { url := some "n", date := some (CDateVal.dt (PyDatetime.naive 3)),
    title := "naive-dated" }

/-- C5 counterexample: a dated, parseable article whose datetime is naive
is kept by _filter_by_time even though its date (instant 3) is not strictly
after last_fetch_time (instant 5): the naive-vs-aware comparison raises
TypeError, which the except branch answers by including the article. -/
theorem filter_by_time_keeps_stale_naive :
    filter_by_time [artNaiveOld] 5 = [artNaiveOld] ∧ ¬ ((5 : Int) < 3) := by
  decide

/-- C5 amended: for a source whose fetch parsed to arts, the articles an
incremental run collects are exactly the parsed articles that pass the
last-fetch time filter (with the source name filled in) and whose url is
not already stored; an article whose date value parses to a timezone-aware
instant passes the time filter exactly when that instant is strictly after
last_fetch_time, and an article with a missing, falsy, unparseable or
naive date always passes it. -/
theorem incremental_source_selection (name : String) (arts : List RArticle)
    (urls : List (Option String)) (t : Int) :
    ((incLoop urls (some t)
        [{ name := name, stype := SourceType.rss, fetched := Except.ok arts }]).1 =
      ((filter_by_time arts t).map (setSourceName name)).filter
        (fun a => decide (a.url ∉ urls))) ∧
    (∀ a ∈ filter_by_time arts t, a ∈ arts ∧ keepAfter t a = true) ∧
    (∀ (a : RArticle) (v : CDateVal) (s : Int),
      pyOrDate a.date a.published = some v → truthyC v = true →
      parsedOf v = some (PyDatetime.aware s) →
      (keepAfter t a = true ↔ t < s)) ∧
    (∀ a : RArticle, pyOrDate a.date a.published = Option.none →
      keepAfter t a = true) ∧
    (∀ (a : RArticle) (v : CDateVal),
      pyOrDate a.date a.published = some v → truthyC v = false →
      keepAfter t a = true) ∧
    (∀ (a : RArticle) (v : CDateVal),
      pyOrDate a.date a.published = some v → truthyC v = true →
      parsedOf v = Option.none → keepAfter t a = true) ∧
    (∀ (a : RArticle) (v : CDateVal) (s : Int),
      pyOrDate a.date a.published = some v →
      parsedOf v = some (PyDatetime.naive s) → keepAfter t a = true) := by
  refine ⟨?_, ?_, ?_, ?_, ?_, ?_, ?_⟩
  · show (((filter_by_time arts t).map (setSourceName name)).filter
        (fun a => decide (a.url ∉ urls)) ++
          (incLoop urls (some t) []).1) =
      ((filter_by_time arts t).map (setSourceName name)).filter
        (fun a => decide (a.url ∉ urls))
    rw [show (incLoop urls (some t) []).1 = [] from rfl, List.append_nil]
  · intro a ha
    rw [filter_by_time, List.mem_filter] at ha
    exact ha
  · intro a v s hv htr hs
    have hval : keepAfter t a = decide (t < s) := by
      rw [keepAfter, hv]
      show (if truthyC v = false then true
          else
            match parsedOf v with
            | some (.aware u) => decide (t < u)
            | some (.naive _) => true
            | Option.none => true) = decide (t < s)
      rw [htr, if_neg (by simp), hs]
    rw [hval]
    exact ⟨of_decide_eq_true, decide_eq_true⟩
  · intro a hv
    rw [keepAfter, hv]
  · intro a v hv htr
    rw [keepAfter, hv]
    show (if truthyC v = false then true
        else
          match parsedOf v with
          | some (.aware u) => decide (t < u)
          | some (.naive _) => true
          | Option.none => true) = true
    rw [htr, if_pos rfl]
  · intro a v hv htr hinst
    rw [keepAfter, hv]
    show (if truthyC v = false then true
        else
          match parsedOf v with
          | some (.aware u) => decide (t < u)
          | some (.naive _) => true
          | Option.none => true) = true
    rw [htr, if_neg (by simp), hinst]
  · intro a v s hv hp
    rw [keepAfter, hv]
    show (if truthyC v = false then true
        else
          match parsedOf v with
          | some (.aware u) => decide (t < u)
          | some (.naive _) => true
          | Option.none => true) = true
    cases htr : truthyC v with
    | false => rw [if_pos rfl]
    | true => rw [if_neg (by simp), hp]

/-- Article dated at the aware instant 7, for the C5 witness. -/
def wArtDated : RArticle :=
  { url := some "w", date := some (CDateVal.dt (PyDatetime.aware 7)) }

/-- Article with no date at all, for the C5 witness. -/
def wArtUndated : RArticle :=
  { url := some "w", title := "undated" }

/-- Article whose nonempty date string fails to parse, for the C5 witness. -/
def wArtBadDate : RArticle :=
  { url := some "w", date := some (CDateVal.str true Option.none) }

/-- Article with a naive datetime, for the C5 witness. -/
def wArtNaive : RArticle :=
  { url := some "w", date := some (CDateVal.dt (PyDatetime.naive 9)) }

/-- Witness for C5: the aware-dated criterion and the retention of
undated, unparseable and naive-dated articles at concrete articles, with
the last fetch at instant 5. -/
theorem incremental_source_selection_witness :
    (keepAfter 5 wArtDated = true ↔ (5 : Int) < 7) ∧
    keepAfter 5 wArtUndated = true ∧
    keepAfter 5 wArtBadDate = true ∧
    keepAfter 5 wArtNaive = true :=
  ⟨(incremental_source_selection "s" [] [] 5).2.2.1 wArtDated
      (CDateVal.dt (PyDatetime.aware 7)) 7 rfl rfl rfl,
    (incremental_source_selection "s" [] [] 5).2.2.2.1 wArtUndated rfl,
    (incremental_source_selection "s" [] [] 5).2.2.2.2.2.1 wArtBadDate
      (CDateVal.str true Option.none) rfl rfl rfl,
    (incremental_source_selection "s" [] [] 5).2.2.2.2.2.2 wArtNaive
      (CDateVal.dt (PyDatetime.naive 9)) 9 rfl rfl⟩

/-- Stats increments a source produces, used to isolate a failing source. -/
theorem process_source_failed {src : RSource}
    (h : (∃ e, src.fetched = Except.error e) ∨ (∃ t, src.stype = SourceType.other t)) :
    process_source src lf = ([], { processed := 0, failed := 1 }) := by
  rcases h with ⟨e, he⟩ | ⟨t, ht⟩
  · cases hst : src.stype <;> rw [process_source, hst] <;> first | rfl | rw [he]
  · rw [process_source, ht]

theorem incLoop_cons (urls : List (Option String)) (lf : Option Int)
    (src : RSource) (rest : List RSource) :
    incLoop urls lf (src :: rest) =
      ((process_source src lf).1.filter (fun a => decide (a.url ∉ urls)) ++
          (incLoop urls lf rest).1,
        addStats (process_source src lf).2 (incLoop urls lf rest).2) := rfl

theorem addStats_failed (s t : Stats) :
    (addStats s t).failed = s.failed + t.failed := rfl

theorem addStats_processed (s t : Stats) :
    (addStats s t).processed = s.processed + t.processed := rfl

/-- C7: a source that raises while being processed, or whose type is
unknown, contributes zero articles and exactly one sources_failed
increment, and leaves the articles and stats of every other source of the
run unchanged -- the run continues and no exception escapes (the model of
_process_source is a total function). -/
theorem failed_source_isolated (pre post : List RSource) (bad : RSource)
    (urls : List (Option String)) (lf : Option Int)
    (h : (∃ e, bad.fetched = Except.error e) ∨
      (∃ t, bad.stype = SourceType.other t)) :
    (incLoop urls lf (pre ++ bad :: post)).1 = (incLoop urls lf (pre ++ post)).1 ∧
    (incLoop urls lf (pre ++ bad :: post)).2.failed =
      (incLoop urls lf (pre ++ post)).2.failed + 1 ∧
    (incLoop urls lf (pre ++ bad :: post)).2.processed =
      (incLoop urls lf (pre ++ post)).2.processed := by
  induction pre with
  | nil =>
      rw [List.nil_append, List.nil_append, incLoop_cons, process_source_failed h]
      refine ⟨?_, ?_, ?_⟩
      · show List.filter _ [] ++ (incLoop urls lf post).1 = (incLoop urls lf post).1
        rw [List.filter_nil, List.nil_append]
      · show (addStats { processed := 0, failed := 1 }
            (incLoop urls lf post).2).failed = (incLoop urls lf post).2.failed + 1
        rw [addStats_failed]
        show 1 + (incLoop urls lf post).2.failed = (incLoop urls lf post).2.failed + 1
        omega
      · show (addStats { processed := 0, failed := 1 }
            (incLoop urls lf post).2).processed = (incLoop urls lf post).2.processed
        rw [addStats_processed]
        show 0 + (incLoop urls lf post).2.processed = (incLoop urls lf post).2.processed
        omega
  | cons src rest ih =>
      obtain ⟨ih1, ih2, ih3⟩ := ih
      rw [List.cons_append, List.cons_append, incLoop_cons, incLoop_cons]
      refine ⟨?_, ?_, ?_⟩
      · show (process_source src lf).1.filter _ ++
            (incLoop urls lf (rest ++ bad :: post)).1 =
          (process_source src lf).1.filter _ ++
            (incLoop urls lf (rest ++ post)).1
        rw [ih1]
      · show (addStats (process_source src lf).2
            (incLoop urls lf (rest ++ bad :: post)).2).failed =
          (addStats (process_source src lf).2
            (incLoop urls lf (rest ++ post)).2).failed + 1
        rw [addStats_failed, addStats_failed, ih2]
        omega
      · show (addStats (process_source src lf).2
            (incLoop urls lf (rest ++ bad :: post)).2).processed =
          (addStats (process_source src lf).2
            (incLoop urls lf (rest ++ post)).2).processed
        rw [addStats_processed, addStats_processed, ih3]

/-- Witness for C7: a run with one healthy source, one unknown-typed
source and one source whose fetch raised. -/
theorem failed_source_isolated_witness :
    ((incLoop [] Option.none
        ([{ name := "good", stype := SourceType.rss,
            fetched := Except.ok [{ url := some "g" }] }] ++
          ({ name := "weird", stype := SourceType.other "atom",
             fetched := Except.ok [] } : RSource) ::
          [{ name := "down", stype := SourceType.rss,
             fetched := Except.error "timeout" }])).1 =
      (incLoop [] Option.none
        ([{ name := "good", stype := SourceType.rss,
            fetched := Except.ok [{ url := some "g" }] }] ++
          [{ name := "down", stype := SourceType.rss,
             fetched := Except.error "timeout" }])).1) ∧
    ((incLoop [] Option.none
        ([{ name := "good", stype := SourceType.rss,
            fetched := Except.ok [{ url := some "g" }] }] ++
          ({ name := "weird", stype := SourceType.other "atom",
             fetched := Except.ok [] } : RSource) ::
          [{ name := "down", stype := SourceType.rss,
             fetched := Except.error "timeout" }])).2.failed =
      (incLoop [] Option.none
        ([{ name := "good", stype := SourceType.rss,
            fetched := Except.ok [{ url := some "g" }] }] ++
          [{ name := "down", stype := SourceType.rss,
             fetched := Except.error "timeout" }])).2.failed + 1) ∧
    ((incLoop [] Option.none
        ([{ name := "good", stype := SourceType.rss,
            fetched := Except.ok [{ url := some "g" }] }] ++
          ({ name := "weird", stype := SourceType.other "atom",
             fetched := Except.ok [] } : RSource) ::
          [{ name := "down", stype := SourceType.rss,
             fetched := Except.error "timeout" }])).2.processed =
      (incLoop [] Option.none
        ([{ name := "good", stype := SourceType.rss,
            fetched := Except.ok [{ url := some "g" }] }] ++
          [{ name := "down", stype := SourceType.rss,
             fetched := Except.error "timeout" }])).2.processed) :=
  failed_source_isolated
    [{ name := "good", stype := SourceType.rss,
       fetched := Except.ok [{ url := some "g" }] }]
    [{ name := "down", stype := SourceType.rss,
       fetched := Except.error "timeout" }]
    { name := "weird", stype := SourceType.other "atom",
      fetched := Except.ok [] }
    [] Option.none (Or.inr ⟨"atom", rfl⟩)

end NewsCore

namespace PyDifflib

/-!
Model of difflib.SequenceMatcher(None, a, b).ratio() as duplicate_filter.py
uses it: no junk predicate, and titles far shorter than the 200-character
autojunk threshold, so the b2j table is exact and the junk widening loops
of find_longest_match never fire.  Sequences are lists of characters; the
float ratio is computed in exact rational arithmetic, which leaves every
threshold comparison the claims make unchanged.
-/

/-- Occurrence positions of c in b, ascending: the b2j table. -/
def b2j (b : List Char) (c : Char) : List Nat :=
  (List.range b.length).filter (fun j => b.get? j == some c)

/-- Lookup in the j2len row with default 0. -/
def lookupLen (l : List (Nat × Nat)) (j : Nat) : Nat :=
  match l.find? (fun p => p.1 == j) with
  | some p => p.2
  | Option.none => 0

/-- Inner loop of find_longest_match over the occurrences of a[i] inside
[blo, bhi): extends runs from the previous row and updates the best
(i, j, size) triple; Python's i-k+1 and j-k+1 are i+1-k and j+1-k in Nat,
equal because a run of length k ending at (i, j) needs k ≤ i+1 and
k ≤ j+1. -/
def flmRow (i : Nat) (j2len : List (Nat × Nat)) (js : List Nat)
    (best : Nat × Nat × Nat) : List (Nat × Nat) × (Nat × Nat × Nat) :=
  js.foldl
    (fun acc j =>
      let k := (if j = 0 then 0 else lookupLen j2len (j - 1)) + 1
      let newRow := (j, k) :: acc.1
      if acc.2.2.2 < k then (newRow, (i + 1 - k, j + 1 - k, k))
      else (newRow, acc.2))
    ([], best)

/-- Equality of a[i] and b[j] when both indices are in range. -/
def chEq (a b : List Char) (i j : Nat) : Bool :=
  match a.get? i, b.get? j with
  | some x, some y => x == y
  | _, _ => false

/-- First widening loop of find_longest_match: grow the block to the left
while both neighbours exist inside the window and agree. -/
def extendLeft (a b : List Char) (alo blo : Nat) :
    Nat → Nat × Nat × Nat → Nat × Nat × Nat
  | 0, best => best
  | fuel + 1, (besti, bestj, bestsize) =>
      if decide (alo < besti) && decide (blo < bestj) &&
          chEq a b (besti - 1) (bestj - 1) then
        extendLeft a b alo blo fuel (besti - 1, bestj - 1, bestsize + 1)
      else (besti, bestj, bestsize)

/-- Second widening loop of find_longest_match, to the right. -/
def extendRight (a b : List Char) (ahi bhi : Nat) :
    Nat → Nat × Nat × Nat → Nat × Nat × Nat
  | 0, best => best
  | fuel + 1, (besti, bestj, bestsize) =>
      if decide (besti + bestsize < ahi) && decide (bestj + bestsize < bhi) &&
          chEq a b (besti + bestsize) (bestj + bestsize) then
        extendRight a b ahi bhi fuel (besti, bestj, bestsize + 1)
      else (besti, bestj, bestsize)

/-- SequenceMatcher.find_longest_match on a[alo:ahi] and b[blo:bhi]. -/
def findLongestMatch (a b : List Char) (alo ahi blo bhi : Nat) :
    Nat × Nat × Nat :=
  let main :=
    (List.range' alo (ahi - alo)).foldl
      (fun (acc : List (Nat × Nat) × (Nat × Nat × Nat)) i =>
        let js :=
          match a.get? i with
          | some c =>
              (b2j b c).filter (fun j => decide (blo ≤ j) && decide (j < bhi))
          | Option.none => []
        flmRow i acc.1 js acc.2)
      ([], (alo, blo, 0))
  let best := extendLeft a b alo blo (a.length + b.length + 1) main.2
  extendRight a b ahi bhi (a.length + b.length + 1) best

/-- Total matched size collected by get_matching_blocks: the queue of
pending windows is processed recursively, each nonempty block splits the
window in two; the fuel used by similarity bounds the number of windows
ever enqueued. -/
def matchTotal (a b : List Char) : Nat → List (Nat × Nat × Nat × Nat) → Nat
  | 0, _ => 0
  | _ + 1, [] => 0
  | fuel + 1, (alo, ahi, blo, bhi) :: queue =>
      let r := findLongestMatch a b alo ahi blo bhi
      let i := r.1
      let j := r.2.1
      let k := r.2.2
      if k = 0 then matchTotal a b fuel queue
      else
        let queue1 :=
          if decide (alo < i) && decide (blo < j) then (alo, i, blo, j) :: queue
          else queue
        let queue2 :=
          if decide (i + k < ahi) && decide (j + k < bhi) then
            (i + k, ahi, j + k, bhi) :: queue1
          else queue1
        k + matchTotal a b fuel queue2

/-- SequenceMatcher(None, a, b).ratio() = 2 * M / (len(a) + len(b)), and
1.0 when both sequences are empty. -/
def similarity (a b : List Char) : ℚ :=
  if a.length + b.length = 0 then 1
  else
    2 * ((matchTotal a b (2 * (a.length + b.length) + 2)
        [(0, a.length, 0, b.length)] : Nat) : ℚ) /
      ((a.length + b.length : Nat) : ℚ)

end PyDifflib

namespace NewsDup

open PyModel PyDifflib

/-!
Model of src/scripts/filters/duplicate_filter.py (DuplicateFilter).

The module imports logging, hashlib, typing and difflib only; the name re
used by _normalize_url is never imported, so every call of _normalize_url
raises NameError.  Thresholds and ratios are exact rationals; the float
ratio 0.7 these claims produce lies strictly between the float thresholds
0.5 and 0.9, so rational comparison agrees with the float comparison.
-/

structure DArticle where
  title : String := ""
  url : Option String := Option.none
  description : Option String := Option.none
  tags : Option String := Option.none
  source : Option String := Option.none
  date : Option String := Option.none
  duplicate_sources : Option (List String) := Option.none
  deriving DecidableEq, Repr

/-- DuplicateFilter instance state: the constructor flags and thresholds
together with the seen-value sets (ordered lists here; only membership and
existential scans are performed on them). -/
structure DuplicateFilter where
  by_url : Bool := true
  by_title : Bool := true
  title_similarity_threshold : ℚ := 85/100
  by_content : Bool := false
  seen_urls : List String := []
  seen_titles : List String := []
  seen_hashes : List String := []
  deriving DecidableEq, Repr

/-- DuplicateFilter._compute_content_hash, modelled by the md5 preimage:
the pipe-joined truthy parts of title, description and source. -/
def contentKey (a : DArticle) : String :=
  String.intercalate "|" (List.filterMap id
    [if a.title = "" then Option.none else some a.title,
     match a.description with
     | some s => if s = "" then Option.none else some s
     | Option.none => Option.none,
     match a.source with
     | some s => if s = "" then Option.none else some s
     | Option.none => Option.none])

/-- DuplicateFilter._is_duplicate: url hit, exact lowered-title hit, a seen
title whose similarity reaches the threshold, or a content-hash hit. -/
def is_duplicate (f : DuplicateFilter) (a : DArticle) : Bool :=
  (f.by_url && f.seen_urls.contains (pyStrip (a.url.getD ""))) ||
    (f.by_title &&
      (f.seen_titles.contains (lowerStr (pyStrip a.title)) ||
        f.seen_titles.any (fun s =>
          decide (f.title_similarity_threshold ≤
            similarity (lowerStr (pyStrip a.title)).toList s.toList)))) ||
    (f.by_content && f.seen_hashes.contains (contentKey a))

/-- DuplicateFilter._track_article: remember the truthy url, lowered title
and content hash under the enabled modes. -/
def track_article (f : DuplicateFilter) (a : DArticle) : DuplicateFilter :=
  let f1 :=
    if f.by_url then
      let url := pyStrip (a.url.getD "")
      if url ≠ "" then { f with seen_urls := f.seen_urls ++ [url] } else f
    else f
  let f2 :=
    if f1.by_title then
      let t := lowerStr (pyStrip a.title)
      if t ≠ "" then { f1 with seen_titles := f1.seen_titles ++ [t] } else f1
    else f1
  if f2.by_content then
    let h := contentKey a
    if h ≠ "" then { f2 with seen_hashes := f2.seen_hashes ++ [h] } else f2
  else f2

/-- DuplicateFilter.filter: drop duplicates, track and keep the rest. -/
def runDedup (f : DuplicateFilter) : List DArticle → List DArticle
  | [] => []
  | a :: rest =>
      if is_duplicate f a then runDedup f rest
      else a :: runDedup (track_article f a) rest

/-- DuplicateFilter._normalize_url: the body lowercases the url and then,
for the first tracking parameter, evaluates re.sub; the module never
imports re, so the global name lookup raises NameError on every call,
before any substitution happens. -/
def normalize_url (url : String) : Except String String :=
  let _lowered := lowerStr url
  Except.error "NameError: name 're' is not defined"

/-- Append an article to its url group, keeping dict insertion order. -/
def groupInsert (groups : List (String × List DArticle)) (key : String)
    (a : DArticle) : List (String × List DArticle) :=
  match groups with
  | [] => [(key, [a])]
  | (k, g) :: rest =>
      if k = key then (k, g ++ [a]) :: rest
      else (k, g) :: groupInsert rest key a

/-- Stable insertion for list.sort(key=date, reverse=True). -/
def insertDescByDate (a : DArticle) : List DArticle → List DArticle
  | [] => [a]
  | b :: bs =>
      if b.date.getD "" < a.date.getD "" then a :: b :: bs
      else b :: insertDescByDate a bs

/-- Stable descending sort by the date string. -/
def sortDescByDate (g : List DArticle) : List DArticle :=
  g.foldl (fun acc a => insertDescByDate a acc) []

/-- Stable insertion for list.sort(key=date). -/
def insertAscByDate (a : DArticle) : List DArticle → List DArticle
  | [] => [a]
  | b :: bs =>
      if a.date.getD "" < b.date.getD "" then a :: b :: bs
      else b :: insertAscByDate a bs

/-- Stable ascending sort by the date string. -/
def sortAscByDate (g : List DArticle) : List DArticle :=
  g.foldl (fun acc a => insertAscByDate a acc) []

/-- Field merge of merge_duplicates: a falsy base field is filled from a
truthy donor field, for description, tags and source. -/
def mergeInto (base : DArticle) (a : DArticle) : DArticle :=
  { base with
      description :=
        if truthyStr base.description = false && truthyStr a.description then
          a.description
        else base.description
      tags :=
        if truthyStr base.tags = false && truthyStr a.tags then a.tags
        else base.tags
      source :=
        if truthyStr base.source = false && truthyStr a.source then a.source
        else base.source }

/-- Source bookkeeping of merge_duplicates: when the group carries more
than one distinct source name, the names other than the base's are stored
under duplicate_sources (the Python set is rendered in first-appearance
order). -/
def finishBase (base : DArticle) (group : List DArticle) : DArticle :=
  let sources := (group.map (fun a => a.source.getD "")).dedup
  if 1 < sources.length then
    { base with
        duplicate_sources :=
          some (sources.filter (fun s => s ≠ base.source.getD "")) }
  else base

/-- DuplicateFilter.merge_duplicates: group the articles by normalized url
(raising whatever _normalize_url raises), pass singleton groups through,
and collapse each larger group onto its preferred first element. -/
def merge_duplicates (articles : List DArticle) (prefer : String) :
    Except String (List DArticle) := do
  let groups ← articles.foldlM
    (fun gs a => do
      let u ← normalize_url (a.url.getD "")
      pure (groupInsert gs u a))
    ([] : List (String × List DArticle))
  pure (groups.foldl
    (fun acc g =>
      match g.2 with
      | [single] => acc ++ [single]
      | group =>
          let sorted :=
            if prefer = "newest" then sortDescByDate group
            else if prefer = "oldest" then sortAscByDate group
            else group
          match sorted with
          | [] => acc
          | base :: rest =>
              acc ++ [finishBase (rest.foldl mergeInto base) (base :: rest)])
    [])

/-- C1 (code bug): merge_duplicates reaches _normalize_url on the first
article of any nonempty input, and that call raises NameError because
duplicate_filter.py never imports re; no grouping or merging ever
happens. -/
theorem merge_duplicates_raises_nameerror (a : DArticle)
    (rest : List DArticle) (prefer : String) :
    merge_duplicates (a :: rest) prefer =
      Except.error "NameError: name 're' is not defined" := rfl

/-- First test article of C9. -/
def artToday : DArticle :=
  { title := "AI News Today", url := some "https://a.example/1" }

/-- Second test article of C9, similar title, distinct url. -/
def artShort : DArticle :=
  { title := "AI News", url := some "https://b.example/2" }

theorem runDedup_cons (f : DuplicateFilter) (a : DArticle)
    (rest : List DArticle) :
    runDedup f (a :: rest) =
      if is_duplicate f a then runDedup f rest
      else a :: runDedup (track_article f a) rest := rfl

theorem runDedup_keep_two (f : DuplicateFilter) (a b : DArticle)
    (h1 : is_duplicate f a = false)
    (h2 : is_duplicate (track_article f a) b = false) :
    runDedup f [a, b] = [a, b] := by
  rw [runDedup_cons, h1, if_neg Bool.false_ne_true, runDedup_cons, h2,
    if_neg Bool.false_ne_true]
  rfl

theorem runDedup_drop_second (f : DuplicateFilter) (a b : DArticle)
    (h1 : is_duplicate f a = false)
    (h2 : is_duplicate (track_article f a) b = true) :
    runDedup f [a, b] = [a] := by
  rw [runDedup_cons, h1, if_neg Bool.false_ne_true, runDedup_cons, h2, if_pos rfl]
  rfl

theorem matchTotal_ai_news : matchTotal "ai news".toList "ai news today".toList
    42 [(0, 7, 0, 13)] = 7 := by decide

theorem similarity_ai_news :
    similarity "ai news".toList "ai news today".toList = 7/10 := by
  show (if "ai news".toList.length + "ai news today".toList.length = 0 then (1 : ℚ)
    else
      2 * ((matchTotal "ai news".toList "ai news today".toList
          (2 * ("ai news".toList.length + "ai news today".toList.length) + 2)
          [(0, "ai news".toList.length, 0, "ai news today".toList.length)] :
            Nat) : ℚ) /
        (("ai news".toList.length + "ai news today".toList.length : Nat) : ℚ)) =
    7/10
  rw [show "ai news".toList.length = 7 from rfl,
    show "ai news today".toList.length = 13 from rfl,
    if_neg (by norm_num), show (2 * (7 + 13) + 2 : Nat) = 42 from rfl,
    matchTotal_ai_news]
  norm_num

/-- C9: on a fresh filter with title checking on, the titles "AI News
Today" and "AI News" have sequence similarity 7/10, so with threshold 0.9
both articles are kept and with threshold 0.5 only the first is. -/
theorem title_similarity_thresholds :
    runDedup { title_similarity_threshold := 9/10 } [artToday, artShort] =
      [artToday, artShort] ∧
    runDedup { title_similarity_threshold := 1/2 } [artToday, artShort] =
      [artToday] ∧
    similarity (lowerStr (pyStrip artShort.title)).toList
        (lowerStr (pyStrip artToday.title)).toList = 7/10 := by
  have hsl1 : lowerStr (pyStrip artShort.title) = "ai news" := by decide
  have hsl2 : lowerStr (pyStrip artToday.title) = "ai news today" := by decide
  have hne9 : ¬ ((9 : ℚ)/10 ≤
      similarity (lowerStr (pyStrip artShort.title)).toList
        "ai news today".toList) := by
    rw [hsl1, similarity_ai_news]
    norm_num
  have hle5 : (1 : ℚ)/2 ≤
      similarity (lowerStr (pyStrip artShort.title)).toList
        "ai news today".toList := by
    rw [hsl1, similarity_ai_news]
    norm_num
  refine ⟨?_, ?_, ?_⟩
  · refine runDedup_keep_two _ _ _ (by decide) ?_
    show ((true && List.contains ["https://a.example/1"]
          (pyStrip (artShort.url.getD ""))) ||
        (true && (List.contains ["ai news today"] (lowerStr (pyStrip artShort.title)) ||
          List.any ["ai news today"] (fun s =>
            decide ((9 : ℚ)/10 ≤
              similarity (lowerStr (pyStrip artShort.title)).toList s.toList)))) ||
        (false && List.contains [] (contentKey artShort))) = false
    rw [show List.contains ["https://a.example/1"]
        (pyStrip (artShort.url.getD "")) = false from by decide,
      show List.contains ["ai news today"]
        (lowerStr (pyStrip artShort.title)) = false from by decide,
      show List.any ["ai news today"] (fun s =>
          decide ((9 : ℚ)/10 ≤
            similarity (lowerStr (pyStrip artShort.title)).toList s.toList)) =
        (decide ((9 : ℚ)/10 ≤
          similarity (lowerStr (pyStrip artShort.title)).toList
            "ai news today".toList) || false) from rfl,
      decide_eq_false hne9]
    rfl
  · refine runDedup_drop_second _ _ _ (by decide) ?_
    show ((true && List.contains ["https://a.example/1"]
          (pyStrip (artShort.url.getD ""))) ||
        (true && (List.contains ["ai news today"] (lowerStr (pyStrip artShort.title)) ||
          List.any ["ai news today"] (fun s =>
            decide ((1 : ℚ)/2 ≤
              similarity (lowerStr (pyStrip artShort.title)).toList s.toList)))) ||
        (false && List.contains [] (contentKey artShort))) = true
    rw [show List.any ["ai news today"] (fun s =>
          decide ((1 : ℚ)/2 ≤
            similarity (lowerStr (pyStrip artShort.title)).toList s.toList)) =
        (decide ((1 : ℚ)/2 ≤
          similarity (lowerStr (pyStrip artShort.title)).toList
            "ai news today".toList) || false) from rfl,
      decide_eq_true hle5]
    simp
  · rw [hsl1, hsl2]
    exact similarity_ai_news

end NewsDup
